import Mathlib

/-!
Shallow embedding of the browser-verification scripts under
`jules-scratch/verification/` and proofs about their control flow.

Each Python script is a linear sequence of Playwright operations ("steps")
against a live web application.  The application and Playwright are external:
we model them by an environment `Env` that decides, for each operation,
whether it succeeds or raises.  Executing a script produces a `Trace` of
observable events (operations attempted with their outcome, keystrokes
emitted by `type`, messages printed, the browser being closed) together with
an `Outcome`: normal return or an uncaught exception.

The two module-style scripts (`verify_cashbook.py`, `verify_refactor.py`)
share the shape `try: steps … except Exception as e: print; screenshot(err)
finally: browser.close()`; the three pytest-style scripts have no handler at
all, and the pytest-playwright fixture closes the browser after the test body
regardless of its outcome.
-/

namespace ArkVerify

/-- Element locator, mirroring the Playwright locator constructors used by the
scripts: `get_by_role(role, name=…)`, `get_by_text`, `get_by_placeholder`,
`page.locator(css)`, `locator.locator(sel)` and `.first`. -/
inductive Locator where
  | byRole (role : String) (name : String)
  | byText (text : String)
  | byPlaceholder (placeholder : String)
  | css (selector : String)
  | sub (parent : Locator) (selector : String)
  | first (l : Locator)
deriving DecidableEq

/-- One Playwright operation performed by a script.  `timeout` is `some ms`
when the script passes an explicit `timeout=` argument and `none` for the
library default. -/
inductive Action where
  | goto (url : String)
  | expectVisible (l : Locator) (timeout : Option Nat)
  | waitForSelector (selector : String) (timeout : Nat)
  | click (l : Locator)
  | typeText (l : Locator) (text : String) (delay : Nat)
  | waitForTimeout (ms : Nat)
  | screenshot (path : String)
deriving DecidableEq

/-- Observable events of one script execution, in program order. -/
inductive Event where
  | act (a : Action) (ok : Bool)
  | keystroke (c : Char) (delay : Nat)
  | printMsg (s : String)
  | printError (a : Action)
  | browserClose
deriving DecidableEq

abbrev Trace := List Event

/-- Result of running a script body: normal return, or an uncaught exception
raised by the given operation. -/
inductive Outcome where
  | ok
  | exn (a : Action)
deriving DecidableEq

/-- The external world (web application + Playwright): for every operation it
decides whether that operation succeeds.  The scripts are deterministic given
this oracle. -/
structure Env where
  ok : Action → Bool

/-- Events emitted by one successful or failing operation.  A successful
`type(text, delay)` emits one keystroke-equivalent write per character of the
text, each separated by `delay` milliseconds, before the operation completes;
a failing operation (element not located) emits no keystrokes. -/
def actionEvents (a : Action) (ok : Bool) : Trace :=
  match a, ok with
  | .typeText _ text delay, true =>
      (text.toList.map fun c => Event.keystroke c delay) ++ [Event.act a true]
  | _, _ => [Event.act a ok]

/-- Run a list of operations in order, stopping at the first failure: the
Python statements execute sequentially and an exception aborts the rest of
the block.  Returns the trace plus `some a` when operation `a` raised. -/
def seqA (env : Env) : List Action → Trace × Option Action
  | [] => ([], none)
  | a :: rest =>
      if env.ok a then
        let r := seqA env rest
        (actionEvents a true ++ r.1, r.2)
      else
        (actionEvents a false, some a)

/-- Trace of a list of operations that all succeed. -/
def eventsOfOk : List Action → Trace
  | [] => []
  | a :: rest => actionEvents a true ++ eventsOfOk rest

/-- The `try: steps; print(okMsg) except Exception as e: print(error); page.
screenshot(errPath) finally: browser.close()` shape shared by
`verify_cashbook.py` and `verify_refactor.py`.  On a step failure the handler
prints the error and attempts the failure screenshot; if that attempt itself
fails its exception propagates to the caller (after `finally` has closed the
browser).  The success message is printed inside the `try` after the last
step. -/
def runnerWithHandler (env : Env) (steps : List Action) (okMsg : String)
    (errPath : String) : Trace × Outcome :=
  match seqA env steps with
  | (t, none) => (t ++ [Event.printMsg okMsg, Event.browserClose], Outcome.ok)
  | (t, some e) =>
      (t ++ [Event.printError e,
             Event.act (Action.screenshot errPath) (env.ok (Action.screenshot errPath)),
             Event.browserClose],
       if env.ok (Action.screenshot errPath) then Outcome.ok
       else Outcome.exn (Action.screenshot errPath))

/-- The pytest-style test body: a plain sequence of statements with no
handler; the first failing operation's exception propagates to the caller. -/
def runnerNoHandler (env : Env) (steps : List Action) : Trace × Outcome :=
  match seqA env steps with
  | (t, none) => (t, Outcome.ok)
  | (t, some e) => (t, Outcome.exn e)

/-- The pytest-playwright fixture providing the `page` argument: it closes
the browser during teardown after the test body finishes, whether the body
returned normally or raised.  (External harness semantics, like `Env`.) -/
def withFixture (body : Env → Trace × Outcome) (env : Env) : Trace × Outcome :=
  ((body env).1 ++ [Event.browserClose], (body env).2)

namespace verify_cashbook

/-- Steps of the `try` block of `run` in `verify_cashbook.py`, lines 9-18. -/
def steps : List Action :=
  [ Action.goto "http://localhost:3000/cashbook",
    Action.expectVisible (Locator.byRole "heading" "Cash Book") (some 30000),
    Action.expectVisible (Locator.byText "Monthly Summary") (some 30000),
    Action.screenshot "jules-scratch/verification/cashbook.png" ]

/-- Failure artifact path used by the `except` handler, line 22. -/
def errPath : String := "jules-scratch/verification/error_screenshot.png"

/-- `run(playwright)` of `verify_cashbook.py`. -/
def run (env : Env) : Trace × Outcome :=
  runnerWithHandler env steps "Screenshot taken successfully." errPath

end verify_cashbook

namespace verify_refactor

/-- Steps of the `try` block of `run_verification` in `verify_refactor.py`,
lines 9-22: three page scenarios (dashboard, suppliers, inventory), each
navigate + wait-for-selector + success screenshot. -/
def steps : List Action :=
  [ Action.goto "http://localhost:3000",
    Action.waitForSelector "h1:has-text(\x27Customer Management\x27)" 30000,
    Action.screenshot "jules-scratch/verification/01_dashboard.png",
    Action.goto "http://localhost:3000/suppliers",
    Action.waitForSelector "h1:has-text(\x27Suppliers\x27)" 30000,
    Action.screenshot "jules-scratch/verification/02_suppliers.png",
    Action.goto "http://localhost:3000/inventory",
    Action.waitForSelector "h1:has-text(\x27Fabric Inventory\x27)" 30000,
    Action.screenshot "jules-scratch/verification/03_inventory.png" ]

/-- Failure artifact path used by the `except` handler, line 28. -/
def errPath : String := "jules-scratch/verification/error.png"

/-- `run_verification()` of `verify_refactor.py`. -/
def run_verification (env : Env) : Trace × Outcome :=
  runnerWithHandler env steps "Verification script completed successfully!" errPath

end verify_refactor

namespace verify_dashboard

/-- The search input locator of `verify_dashboard.py`, line 19. -/
def searchInput : Locator := Locator.byPlaceholder "Search by name or phone..."

/-- Statements of `test_dashboard_optimizations` in `verify_dashboard.py`,
lines 10-28. -/
def steps : List Action :=
  [ Action.goto "http://localhost:3000",
    Action.expectVisible (Locator.byRole "heading" "Customer Management") none,
    Action.expectVisible searchInput none,
    Action.typeText searchInput "Test Customer" 100,
    Action.waitForTimeout 500,
    Action.screenshot "jules-scratch/verification/dashboard_verification.png" ]

/-- `test_dashboard_optimizations(page)` of `verify_dashboard.py`: no
exception handler of its own. -/
def test_dashboard_optimizations (env : Env) : Trace × Outcome :=
  runnerNoHandler env steps

end verify_dashboard

namespace verify_customer_page

/-- The first row of the customer table, `verify_customer_page.py` line 15. -/
def firstRow : Locator := Locator.first (Locator.sub (Locator.css "table > tbody") "tr")

/-- Statements of `test_customer_page_loads_correctly` in
`verify_customer_page.py`, lines 9-23. -/
def steps : List Action :=
  [ Action.goto "http://localhost:3000",
    Action.expectVisible (Locator.css "table > tbody") none,
    Action.click firstRow,
    Action.expectVisible (Locator.byRole "heading" "Customer Profile") none,
    Action.screenshot "jules-scratch/verification/customer_page_verification.png" ]

/-- `test_customer_page_loads_correctly(page)` of `verify_customer_page.py`:
no exception handler of its own. -/
def test_customer_page_loads_correctly (env : Env) : Trace × Outcome :=
  runnerNoHandler env steps

end verify_customer_page

namespace verify_expense_report_filter

/-- Statements of `test_expense_report_date_filter` in
`verify_expense_report_filter.py`, lines 10-26 (the date-picker visibility is
asserted twice in the source). -/
def steps : List Action :=
  [ Action.goto "http://localhost:3000/reports/expense",
    Action.expectVisible (Locator.byRole "heading" "Expense Report") none,
    Action.expectVisible (Locator.byRole "button" "Pick a date") none,
    Action.expectVisible (Locator.byRole "button" "Pick a date") none,
    Action.screenshot "jules-scratch/verification/expense_report_filter_verification.png" ]

/-- `test_expense_report_date_filter(page)` of
`verify_expense_report_filter.py`: no exception handler of its own. -/
def test_expense_report_date_filter (env : Env) : Trace × Outcome :=
  runnerNoHandler env steps

end verify_expense_report_filter

/-- Does this event record an attempt (successful or not) of operation `a`? -/
def attemptedOn (a : Action) : Event → Bool
  | Event.act b _ => b == a
  | _ => false

/-- Was operation `a` attempted anywhere in the trace? -/
def attemptedB (a : Action) (t : Trace) : Bool := t.any (attemptedOn a)

/-- Does this event record a screenshot attempt at `path` (whatever its
result)? -/
def isShotAttempt (path : String) : Event → Bool
  | Event.act (Action.screenshot p) _ => p == path
  | _ => false

/-- Number of screenshot attempts at `path` in the trace. -/
def screenshotAttempts (path : String) (t : Trace) : Nat :=
  (t.filter (isShotAttempt path)).length

/-- Does this event record a screenshot attempt at any path? -/
def isAnyShotAttempt : Event → Bool
  | Event.act (Action.screenshot _) _ => true
  | _ => false

/-- Was any screenshot attempted in the trace? -/
def anyScreenshotAttempt (t : Trace) : Bool := t.any isAnyShotAttempt

/-- The path of a screenshot that was actually produced (attempted and
succeeded) by this event, if any. -/
def producedOf : Event → Option String
  | Event.act (Action.screenshot p) true => some p
  | _ => none

/-- Paths of the screenshots actually produced along the trace, in order. -/
def producedScreenshots (t : Trace) : List String := t.filterMap producedOf

/-- Is this event the printing of a caught error message? -/
def isPrintError : Event → Bool
  | Event.printError _ => true
  | _ => false

/-- Number of caught-error messages printed along the trace. -/
def countPrintErrors (t : Trace) : Nat := (t.filter isPrintError).length

/-- Suffix of the trace starting at the first occurrence of event `e`. -/
def fromEvent (e : Event) (t : Trace) : Trace :=
  t.dropWhile (fun x => !(x == e))

/-- Prefix of the trace strictly before the first occurrence of event `e`. -/
def beforeEvent (e : Event) (t : Trace) : Trace :=
  t.takeWhile (fun x => !(x == e))

/-- Prefix of the trace strictly before the browser is closed. -/
def beforeClose (t : Trace) : Trace := beforeEvent Event.browserClose t

/-- The keystroke-equivalent writes of the trace: character and
inter-character delay, in order. -/
def keystrokeOf : Event → Option (Char × Nat)
  | Event.keystroke c d => some (c, d)
  | _ => none

/-- All keystrokes emitted along the trace, in order. -/
def keystrokesOf (t : Trace) : List (Char × Nat) := t.filterMap keystrokeOf

/-- Lower bound, in milliseconds, that one event forces to elapse: a
keystroke waits its inter-character delay, a completed `wait_for_timeout`
waits its duration. -/
def eventDelay : Event → Nat
  | Event.keystroke _ d => d
  | Event.act (Action.waitForTimeout ms) true => ms
  | _ => 0

/-- Lower bound, in milliseconds, that the trace forces to elapse. -/
def traceDelay (t : Trace) : Nat := (t.map eventDelay).sum

/-- Environment in which every operation succeeds. -/
def envAllOk : Env := ⟨fun _ => true⟩

/-- Environment in which every operation fails. -/
def envAllFail : Env := ⟨fun _ => false⟩

/-- Is this operation a navigation? -/
def isGoto : Action → Bool
  | Action.goto _ => true
  | _ => false

/-- Environment in which every navigation fails (target unreachable) and
everything else succeeds. -/
def envGotoFail : Env := ⟨fun a => !(isGoto a)⟩

/-- Environment of an application with an empty customer table: pages load
and headings render, but the click on the first table row fails because no
row exists.  Every operation other than that click succeeds. -/
def envNoRows : Env := ⟨fun a => !(a == Action.click verify_customer_page.firstRow)⟩

/-- Environment in which the cashbook heading check fails (page reachable,
heading never visible) and everything else succeeds. -/
def envNoHeading : Env :=
  ⟨fun a => !(a == Action.expectVisible (Locator.byRole "heading" "Cash Book") (some 30000))⟩

/-- Environment in which every verification step succeeds but every
screenshot write fails (artifact directory unwritable). -/
def envShotFail : Env :=
  ⟨fun a => match a with
    | Action.screenshot _ => false
    | _ => true⟩

/-- Environment in which verification steps succeed, the success screenshot
write fails, but the failure screenshot write succeeds. -/
def envSuccessShotFail : Env :=
  ⟨fun a => !(a == Action.screenshot "jules-scratch/verification/cashbook.png")⟩

/-- A failing operation emits exactly its failed attempt. -/
lemma actionEvents_false (a : Action) : actionEvents a false = [Event.act a false] := by
  cases a <;> rfl

/-- Head of `List.get` on a cons cell with a successor index. -/
lemma get_cons_succ_action (a : Action) (as : List Action) (k : Nat)
    (h : k + 1 < (a :: as).length) :
    (a :: as).get ⟨k + 1, h⟩ = as.get ⟨k, Nat.lt_of_succ_lt_succ h⟩ := rfl

/-- When every operation of the block succeeds, the block runs to the end and
emits the successful events of every operation, in order. -/
lemma seqA_allOk (env : Env) (as : List Action) (h : as.all env.ok = true) :
    seqA env as = (eventsOfOk as, none) := by
  induction as with
  | nil => rfl
  | cons a rest ih =>
      rw [List.all_cons, Bool.and_eq_true] at h
      simp [seqA, eventsOfOk, h.1, ih h.2]

/-- When the operations before index `k` succeed and the one at `k` fails,
the block stops at `k`: the trace is the successful prefix followed by the
failed attempt, and the exception carries the failing operation. -/
lemma seqA_firstFail (env : Env) (as : List Action) (k : Nat) (hk : k < as.length)
    (hpre : (as.take k).all env.ok = true)
    (hfail : env.ok (as.get ⟨k, hk⟩) = false) :
    seqA env as =
      (eventsOfOk (as.take k) ++ [Event.act (as.get ⟨k, hk⟩) false],
       some (as.get ⟨k, hk⟩)) := by
  induction as generalizing k with
  | nil => exact absurd hk (Nat.not_lt_zero k)
  | cons a rest ih =>
      cases k with
      | zero =>
          have h0 : env.ok a = false := hfail
          simp [seqA, h0, eventsOfOk, actionEvents_false]
      | succ k =>
          have hk2 : k < rest.length := Nat.lt_of_succ_lt_succ hk
          rw [List.take_succ_cons, List.all_cons, Bool.and_eq_true] at hpre
          have hfail2 : env.ok (rest.get ⟨k, hk2⟩) = false := hfail
          rw [get_cons_succ_action, List.take_succ_cons]
          simp [seqA, hpre.1, ih k hk2 hpre.2 hfail2, eventsOfOk, List.append_assoc]

/-- Every execution of a block either succeeds entirely or has a first
failing operation. -/
lemma seqA_cases (env : Env) (as : List Action) :
    as.all env.ok = true ∨
      ∃ k, ∃ hk : k < as.length,
        (as.take k).all env.ok = true ∧ env.ok (as.get ⟨k, hk⟩) = false := by
  induction as with
  | nil => left; rfl
  | cons a rest ih =>
      cases h : env.ok a with
      | false => exact Or.inr ⟨0, Nat.succ_pos _, rfl, h⟩
      | true =>
          rcases ih with hall | ⟨k, hk, h1, h2⟩
          · left; simp [List.all_cons, h, hall]
          · refine Or.inr ⟨k + 1, Nat.succ_lt_succ hk, ?_, h2⟩
            simp [List.take_succ_cons, List.all_cons, h, h1]

/-- A handler-style script on an all-successful environment: every step's
events, the success message, then the browser close; normal return. -/
lemma runnerWithHandler_allOk (env : Env) (as : List Action) (msg ePath : String)
    (h : as.all env.ok = true) :
    runnerWithHandler env as msg ePath =
      (eventsOfOk as ++ [Event.printMsg msg, Event.browserClose], Outcome.ok) := by
  simp [runnerWithHandler, seqA_allOk env as h]

/-- A handler-style script whose first step failure is at index `k`: the
successful prefix, the failed attempt, the printed error, the failure
screenshot attempt, the browser close; the run returns normally when the
failure screenshot succeeds and otherwise re-raises that capture's error. -/
lemma runnerWithHandler_firstFail (env : Env) (as : List Action) (msg ePath : String)
    (k : Nat) (hk : k < as.length) (hpre : (as.take k).all env.ok = true)
    (hfail : env.ok (as.get ⟨k, hk⟩) = false) :
    runnerWithHandler env as msg ePath =
      (eventsOfOk (as.take k) ++
        [Event.act (as.get ⟨k, hk⟩) false, Event.printError (as.get ⟨k, hk⟩),
         Event.act (Action.screenshot ePath) (env.ok (Action.screenshot ePath)),
         Event.browserClose],
       if env.ok (Action.screenshot ePath) then Outcome.ok
       else Outcome.exn (Action.screenshot ePath)) := by
  simp [runnerWithHandler, seqA_firstFail env as k hk hpre hfail, List.append_assoc]

/-- A pytest-style script on an all-successful environment: every step's
events, normal return. -/
lemma runnerNoHandler_allOk (env : Env) (as : List Action)
    (h : as.all env.ok = true) :
    runnerNoHandler env as = (eventsOfOk as, Outcome.ok) := by
  simp [runnerNoHandler, seqA_allOk env as h]

/-- A pytest-style script whose first step failure is at index `k`: the
successful prefix and the failed attempt; the step's exception propagates
uncaught. -/
lemma runnerNoHandler_firstFail (env : Env) (as : List Action)
    (k : Nat) (hk : k < as.length) (hpre : (as.take k).all env.ok = true)
    (hfail : env.ok (as.get ⟨k, hk⟩) = false) :
    runnerNoHandler env as =
      (eventsOfOk (as.take k) ++ [Event.act (as.get ⟨k, hk⟩) false],
       Outcome.exn (as.get ⟨k, hk⟩)) := by
  simp [runnerNoHandler, seqA_firstFail env as k hk hpre hfail]

/-- C3: on every exit path of `verify_cashbook.run` and
`verify_refactor.run_verification` — success, handled step failure, or
unhandled exception (including a failed failure-screenshot capture) — the
browser is closed exactly once, and it is the last event before control
returns to the caller. -/
theorem C3_browser_released_exactly_once (env : Env) :
    ((verify_cashbook.run env).1.count Event.browserClose = 1 ∧
      (verify_cashbook.run env).1.getLast? = some Event.browserClose) ∧
    ((verify_refactor.run_verification env).1.count Event.browserClose = 1 ∧
      (verify_refactor.run_verification env).1.getLast? = some Event.browserClose) := by
  constructor
  · rcases seqA_cases env verify_cashbook.steps with hall | ⟨k, hk, hpre, hfail⟩
    · simp only [verify_cashbook.run,
        runnerWithHandler_allOk env verify_cashbook.steps _ _ hall]
      exact ⟨rfl, rfl⟩
    · have hk4 : k < 4 := hk
      interval_cases k <;>
        simp only [verify_cashbook.run,
          runnerWithHandler_firstFail env verify_cashbook.steps _ _ _ hk hpre hfail] <;>
        exact ⟨rfl, rfl⟩
  · rcases seqA_cases env verify_refactor.steps with hall | ⟨k, hk, hpre, hfail⟩
    · simp only [verify_refactor.run_verification,
        runnerWithHandler_allOk env verify_refactor.steps _ _ hall]
      exact ⟨rfl, rfl⟩
    · have hk9 : k < 9 := hk
      interval_cases k <;>
        simp only [verify_refactor.run_verification,
          runnerWithHandler_firstFail env verify_refactor.steps _ _ _ hk hpre hfail] <;>
        exact ⟨rfl, rfl⟩

/-- Witness for C3: the all-failing environment (handled failure whose
failure screenshot also fails) still closes the browser exactly once, last. -/
theorem C3_browser_released_exactly_once_witness :
    ((verify_cashbook.run envAllFail).1.count Event.browserClose = 1 ∧
      (verify_cashbook.run envAllFail).1.getLast? = some Event.browserClose) ∧
    ((verify_refactor.run_verification envAllFail).1.count Event.browserClose = 1 ∧
      (verify_refactor.run_verification envAllFail).1.getLast? = some Event.browserClose) :=
  C3_browser_released_exactly_once envAllFail

/-- C6: when every step succeeds, the cashbook scenario produces exactly its
success screenshot and never attempts its failure artifact; the dashboard
scenario produces exactly its success screenshot; the multi-page refactor run
produces exactly one success screenshot per page scenario, in order, and
never attempts its failure artifact. -/
theorem C6_success_produces_one_success_screenshot (env : Env) :
    (verify_cashbook.steps.all env.ok = true →
      producedScreenshots (verify_cashbook.run env).1 =
          ["jules-scratch/verification/cashbook.png"] ∧
        screenshotAttempts verify_cashbook.errPath (verify_cashbook.run env).1 = 0 ∧
        (verify_cashbook.run env).2 = Outcome.ok) ∧
    (verify_dashboard.steps.all env.ok = true →
      producedScreenshots (verify_dashboard.test_dashboard_optimizations env).1 =
          ["jules-scratch/verification/dashboard_verification.png"] ∧
        (verify_dashboard.test_dashboard_optimizations env).2 = Outcome.ok) ∧
    (verify_refactor.steps.all env.ok = true →
      producedScreenshots (verify_refactor.run_verification env).1 =
          ["jules-scratch/verification/01_dashboard.png",
           "jules-scratch/verification/02_suppliers.png",
           "jules-scratch/verification/03_inventory.png"] ∧
        screenshotAttempts verify_refactor.errPath
          (verify_refactor.run_verification env).1 = 0 ∧
        (verify_refactor.run_verification env).2 = Outcome.ok) := by
  refine ⟨fun h => ?_, fun h => ?_, fun h => ?_⟩
  · simp only [verify_cashbook.run,
      runnerWithHandler_allOk env verify_cashbook.steps _ _ h]
    decide
  · simp only [verify_dashboard.test_dashboard_optimizations,
      runnerNoHandler_allOk env verify_dashboard.steps h]
    decide
  · simp only [verify_refactor.run_verification,
      runnerWithHandler_allOk env verify_refactor.steps _ _ h]
    decide

/-- Witness for C6: the environment in which every operation succeeds. -/
theorem C6_success_produces_one_success_screenshot_witness :
    producedScreenshots (verify_cashbook.run envAllOk).1 =
        ["jules-scratch/verification/cashbook.png"] ∧
      producedScreenshots (verify_dashboard.test_dashboard_optimizations envAllOk).1 =
        ["jules-scratch/verification/dashboard_verification.png"] ∧
      producedScreenshots (verify_refactor.run_verification envAllOk).1 =
        ["jules-scratch/verification/01_dashboard.png",
         "jules-scratch/verification/02_suppliers.png",
         "jules-scratch/verification/03_inventory.png"] :=
  ⟨((C6_success_produces_one_success_screenshot envAllOk).1 (by decide)).1,
   ((C6_success_produces_one_success_screenshot envAllOk).2.1 (by decide)).1,
   ((C6_success_produces_one_success_screenshot envAllOk).2.2 (by decide)).1⟩

/-- C1: in `verify_cashbook.run` and `verify_refactor.run_verification`, when
step `k` is the first step to fail, no step after `k` is ever attempted (no
retry, no continuation), and exactly one failure-screenshot capture is
attempted, located after the failing step's event. -/
theorem C1_first_failure_aborts_remaining_steps :
    (∀ (env : Env) (k : Nat) (hk : k < verify_cashbook.steps.length),
      (verify_cashbook.steps.take k).all env.ok = true →
      env.ok (verify_cashbook.steps.get ⟨k, hk⟩) = false →
        (∀ (j : Nat) (hj : j < verify_cashbook.steps.length), k < j →
          attemptedB (verify_cashbook.steps.get ⟨j, hj⟩) (verify_cashbook.run env).1 = false) ∧
        screenshotAttempts verify_cashbook.errPath (verify_cashbook.run env).1 = 1 ∧
        screenshotAttempts verify_cashbook.errPath
          (fromEvent (Event.act (verify_cashbook.steps.get ⟨k, hk⟩) false)
            (verify_cashbook.run env).1) = 1) ∧
    (∀ (env : Env) (k : Nat) (hk : k < verify_refactor.steps.length),
      (verify_refactor.steps.take k).all env.ok = true →
      env.ok (verify_refactor.steps.get ⟨k, hk⟩) = false →
        (∀ (j : Nat) (hj : j < verify_refactor.steps.length), k < j →
          attemptedB (verify_refactor.steps.get ⟨j, hj⟩)
            (verify_refactor.run_verification env).1 = false) ∧
        screenshotAttempts verify_refactor.errPath
          (verify_refactor.run_verification env).1 = 1 ∧
        screenshotAttempts verify_refactor.errPath
          (fromEvent (Event.act (verify_refactor.steps.get ⟨k, hk⟩) false)
            (verify_refactor.run_verification env).1) = 1) := by
  constructor
  · intro env k hk hpre hfail
    have hk4 : k < 4 := hk
    interval_cases k
    all_goals
      simp only [verify_cashbook.run,
        runnerWithHandler_firstFail env verify_cashbook.steps _ _ _ hk hpre hfail]
    all_goals refine ⟨?_, rfl, rfl⟩
    all_goals intro j hj hkj
    all_goals have hj4 : j < 4 := hj
    all_goals interval_cases j <;> first | exact absurd hkj (by decide) | rfl
  · intro env k hk hpre hfail
    have hk9 : k < 9 := hk
    interval_cases k
    all_goals
      simp only [verify_refactor.run_verification,
        runnerWithHandler_firstFail env verify_refactor.steps _ _ _ hk hpre hfail]
    all_goals refine ⟨?_, rfl, rfl⟩
    all_goals intro j hj hkj
    all_goals have hj9 : j < 9 := hj
    all_goals interval_cases j <;> first | exact absurd hkj (by decide) | rfl

/-- Witness for C1: when the cashbook heading check fails, the later
"Monthly Summary" check is never attempted and exactly one failure screenshot
is attempted; when the first navigation of the multi-page run fails, the
suppliers page is never visited and exactly one failure screenshot is
attempted. -/
theorem C1_first_failure_aborts_remaining_steps_witness :
    attemptedB (Action.expectVisible (Locator.byText "Monthly Summary") (some 30000))
        (verify_cashbook.run envNoHeading).1 = false ∧
    screenshotAttempts verify_cashbook.errPath (verify_cashbook.run envNoHeading).1 = 1 ∧
    attemptedB (Action.goto "http://localhost:3000/suppliers")
        (verify_refactor.run_verification envGotoFail).1 = false ∧
    screenshotAttempts verify_refactor.errPath
        (verify_refactor.run_verification envGotoFail).1 = 1 :=
  ⟨(C1_first_failure_aborts_remaining_steps.1 envNoHeading 1 (by decide) (by decide)
      (by decide)).1 2 (by decide) (by decide),
   (C1_first_failure_aborts_remaining_steps.1 envNoHeading 1 (by decide) (by decide)
      (by decide)).2.1,
   (C1_first_failure_aborts_remaining_steps.2 envGotoFail 0 (by decide) (by decide)
      (by decide)).1 3 (by decide) (by decide),
   (C1_first_failure_aborts_remaining_steps.2 envGotoFail 0 (by decide) (by decide)
      (by decide)).2.1⟩

/-- C2 counterexample: a dashboard execution whose first step fails releases
the browser (fixture teardown) with no prior screenshot attempt — indeed with
no screenshot attempt at all — refuting "every Scenario execution attempts at
least one screenshot capture before the browser resources are released". -/
theorem C2_counterexample_no_shot_before_release :
    (withFixture verify_dashboard.test_dashboard_optimizations envAllFail).1.count
        Event.browserClose = 1 ∧
    anyScreenshotAttempt
      (withFixture verify_dashboard.test_dashboard_optimizations envAllFail).1 = false := by
  decide

/-- C2 amended: the handler-style scripts (`verify_cashbook.run`,
`verify_refactor.run_verification`) attempt at least one screenshot before
the browser close on every execution; each pytest-style scenario attempts a
screenshot before the fixture closes the browser exactly when every step
before its final screenshot statement succeeds (the screenshot write itself
may fail — a failed write is still an attempt) — in particular, when any
earlier step fails, no screenshot is ever attempted.  The dashboard script
has five steps before its screenshot, the customer-page script four. -/
theorem C2_amended_screenshot_before_release :
    (∀ env : Env,
      anyScreenshotAttempt (beforeClose (verify_cashbook.run env).1) = true) ∧
    (∀ env : Env,
      anyScreenshotAttempt (beforeClose (verify_refactor.run_verification env).1) = true) ∧
    (∀ env : Env,
      anyScreenshotAttempt
          (beforeClose (withFixture verify_dashboard.test_dashboard_optimizations env).1) = true ↔
        (verify_dashboard.steps.take 5).all env.ok = true) ∧
    (∀ env : Env,
      anyScreenshotAttempt
          (beforeClose
            (withFixture verify_customer_page.test_customer_page_loads_correctly env).1) = true ↔
        (verify_customer_page.steps.take 4).all env.ok = true) := by
  refine ⟨fun env => ?_, fun env => ?_, fun env => ?_, fun env => ?_⟩
  · rcases seqA_cases env verify_cashbook.steps with hall | ⟨k, hk, hpre, hfail⟩
    · simp only [verify_cashbook.run,
        runnerWithHandler_allOk env verify_cashbook.steps _ _ hall]
      rfl
    · have hk4 : k < 4 := hk
      interval_cases k <;>
        simp only [verify_cashbook.run,
          runnerWithHandler_firstFail env verify_cashbook.steps _ _ _ hk hpre hfail] <;>
        rfl
  · rcases seqA_cases env verify_refactor.steps with hall | ⟨k, hk, hpre, hfail⟩
    · simp only [verify_refactor.run_verification,
        runnerWithHandler_allOk env verify_refactor.steps _ _ hall]
      rfl
    · have hk9 : k < 9 := hk
      interval_cases k <;>
        simp only [verify_refactor.run_verification,
          runnerWithHandler_firstFail env verify_refactor.steps _ _ _ hk hpre hfail] <;>
        rfl
  · rcases seqA_cases env verify_dashboard.steps with hall | ⟨k, hk, hpre, hfail⟩
    · simp only [withFixture, verify_dashboard.test_dashboard_optimizations,
        runnerNoHandler_allOk env verify_dashboard.steps hall]
      exact iff_of_true rfl
        (List.all_eq_true.mpr fun x hx => List.all_eq_true.mp hall x (List.take_subset _ _ hx))
    · have hk6 : k < 6 := hk
      interval_cases k
      · simp only [withFixture, verify_dashboard.test_dashboard_optimizations,
          runnerNoHandler_firstFail env verify_dashboard.steps 0 (by decide) hpre hfail]
        refine iff_of_false (by decide) fun h5 => ?_
        have hf : env.ok (Action.goto "http://localhost:3000") = false := hfail
        have hm := List.all_eq_true.mp h5 (Action.goto "http://localhost:3000") (by decide)
        rw [hf] at hm
        cases hm
      · simp only [withFixture, verify_dashboard.test_dashboard_optimizations,
          runnerNoHandler_firstFail env verify_dashboard.steps 1 (by decide) hpre hfail]
        refine iff_of_false (by decide) fun h5 => ?_
        have hf : env.ok
            (Action.expectVisible (Locator.byRole "heading" "Customer Management") none) =
            false := hfail
        have hm := List.all_eq_true.mp h5
          (Action.expectVisible (Locator.byRole "heading" "Customer Management") none)
          (by decide)
        rw [hf] at hm
        cases hm
      · simp only [withFixture, verify_dashboard.test_dashboard_optimizations,
          runnerNoHandler_firstFail env verify_dashboard.steps 2 (by decide) hpre hfail]
        refine iff_of_false (by decide) fun h5 => ?_
        have hf : env.ok (Action.expectVisible verify_dashboard.searchInput none) = false :=
          hfail
        have hm := List.all_eq_true.mp h5
          (Action.expectVisible verify_dashboard.searchInput none) (by decide)
        rw [hf] at hm
        cases hm
      · simp only [withFixture, verify_dashboard.test_dashboard_optimizations,
          runnerNoHandler_firstFail env verify_dashboard.steps 3 (by decide) hpre hfail]
        refine iff_of_false (by decide) fun h5 => ?_
        have hf : env.ok
            (Action.typeText verify_dashboard.searchInput "Test Customer" 100) = false :=
          hfail
        have hm := List.all_eq_true.mp h5
          (Action.typeText verify_dashboard.searchInput "Test Customer" 100) (by decide)
        rw [hf] at hm
        cases hm
      · simp only [withFixture, verify_dashboard.test_dashboard_optimizations,
          runnerNoHandler_firstFail env verify_dashboard.steps 4 (by decide) hpre hfail]
        refine iff_of_false (by decide) fun h5 => ?_
        have hf : env.ok (Action.waitForTimeout 500) = false := hfail
        have hm := List.all_eq_true.mp h5 (Action.waitForTimeout 500) (by decide)
        rw [hf] at hm
        cases hm
      · simp only [withFixture, verify_dashboard.test_dashboard_optimizations,
          runnerNoHandler_firstFail env verify_dashboard.steps 5 (by decide) hpre hfail]
        exact iff_of_true (by decide) hpre
  · rcases seqA_cases env verify_customer_page.steps with hall | ⟨k, hk, hpre, hfail⟩
    · simp only [withFixture, verify_customer_page.test_customer_page_loads_correctly,
        runnerNoHandler_allOk env verify_customer_page.steps hall]
      exact iff_of_true rfl
        (List.all_eq_true.mpr fun x hx => List.all_eq_true.mp hall x (List.take_subset _ _ hx))
    · have hk5 : k < 5 := hk
      interval_cases k
      · simp only [withFixture, verify_customer_page.test_customer_page_loads_correctly,
          runnerNoHandler_firstFail env verify_customer_page.steps 0 (by decide) hpre hfail]
        refine iff_of_false (by decide) fun h4 => ?_
        have hf : env.ok (Action.goto "http://localhost:3000") = false := hfail
        have hm := List.all_eq_true.mp h4 (Action.goto "http://localhost:3000") (by decide)
        rw [hf] at hm
        cases hm
      · simp only [withFixture, verify_customer_page.test_customer_page_loads_correctly,
          runnerNoHandler_firstFail env verify_customer_page.steps 1 (by decide) hpre hfail]
        refine iff_of_false (by decide) fun h4 => ?_
        have hf : env.ok (Action.expectVisible (Locator.css "table > tbody") none) = false :=
          hfail
        have hm := List.all_eq_true.mp h4
          (Action.expectVisible (Locator.css "table > tbody") none) (by decide)
        rw [hf] at hm
        cases hm
      · simp only [withFixture, verify_customer_page.test_customer_page_loads_correctly,
          runnerNoHandler_firstFail env verify_customer_page.steps 2 (by decide) hpre hfail]
        refine iff_of_false (by decide) fun h4 => ?_
        have hf : env.ok (Action.click verify_customer_page.firstRow) = false := hfail
        have hm := List.all_eq_true.mp h4
          (Action.click verify_customer_page.firstRow) (by decide)
        rw [hf] at hm
        cases hm
      · simp only [withFixture, verify_customer_page.test_customer_page_loads_correctly,
          runnerNoHandler_firstFail env verify_customer_page.steps 3 (by decide) hpre hfail]
        refine iff_of_false (by decide) fun h4 => ?_
        have hf : env.ok
            (Action.expectVisible (Locator.byRole "heading" "Customer Profile") none) =
            false := hfail
        have hm := List.all_eq_true.mp h4
          (Action.expectVisible (Locator.byRole "heading" "Customer Profile") none)
          (by decide)
        rw [hf] at hm
        cases hm
      · simp only [withFixture, verify_customer_page.test_customer_page_loads_correctly,
          runnerNoHandler_firstFail env verify_customer_page.steps 4 (by decide) hpre hfail]
        exact iff_of_true (by decide) hpre

/-- Witness for C2 amended: the cashbook run with everything failing still
attempts its failure screenshot before the close; the all-failing dashboard
run attempts no screenshot before the fixture closes (both iff sides false);
the all-successful customer-page run attempts its success screenshot before
the fixture closes (both iff sides true). -/
theorem C2_amended_screenshot_before_release_witness :
    anyScreenshotAttempt (beforeClose (verify_cashbook.run envAllFail).1) = true ∧
    (anyScreenshotAttempt
        (beforeClose (withFixture verify_dashboard.test_dashboard_optimizations envAllFail).1) =
        true ↔
      (verify_dashboard.steps.take 5).all envAllFail.ok = true) ∧
    (anyScreenshotAttempt
        (beforeClose
          (withFixture verify_customer_page.test_customer_page_loads_correctly envAllOk).1) =
        true ↔
      (verify_customer_page.steps.take 4).all envAllOk.ok = true) :=
  ⟨C2_amended_screenshot_before_release.1 envAllFail,
   C2_amended_screenshot_before_release.2.2.1 envAllFail,
   C2_amended_screenshot_before_release.2.2.2 envAllOk⟩

/-- C4: in both handler-style scripts, when some step of the `try` block
fails and the failure-path screenshot capture also fails, the capture's error
propagates unwrapped out of the run function: the outcome is exactly the
exception of the failure-screenshot operation. -/
theorem C4_secondary_failure_propagates_unwrapped :
    (∀ (env : Env) (e : Action),
      (seqA env verify_cashbook.steps).2 = some e →
      env.ok (Action.screenshot verify_cashbook.errPath) = false →
        (verify_cashbook.run env).2 =
          Outcome.exn (Action.screenshot verify_cashbook.errPath)) ∧
    (∀ (env : Env) (e : Action),
      (seqA env verify_refactor.steps).2 = some e →
      env.ok (Action.screenshot verify_refactor.errPath) = false →
        (verify_refactor.run_verification env).2 =
          Outcome.exn (Action.screenshot verify_refactor.errPath)) := by
  constructor
  · intro env e hsome hshot
    rcases hE : seqA env verify_cashbook.steps with ⟨t, r⟩
    rw [hE] at hsome
    have hr : r = some e := hsome
    subst hr
    simp only [verify_cashbook.run, runnerWithHandler]
    rw [hE]
    simp [hshot]
  · intro env e hsome hshot
    rcases hE : seqA env verify_refactor.steps with ⟨t, r⟩
    rw [hE] at hsome
    have hr : r = some e := hsome
    subst hr
    simp only [verify_refactor.run_verification, runnerWithHandler]
    rw [hE]
    simp [hshot]

/-- Witness for C4: with every operation failing, both runs end in the
uncaught exception of their failure-screenshot capture. -/
theorem C4_secondary_failure_propagates_unwrapped_witness :
    (verify_cashbook.run envAllFail).2 =
      Outcome.exn (Action.screenshot verify_cashbook.errPath) ∧
    (verify_refactor.run_verification envAllFail).2 =
      Outcome.exn (Action.screenshot verify_refactor.errPath) :=
  ⟨C4_secondary_failure_propagates_unwrapped.1 envAllFail
      (Action.goto "http://localhost:3000/cashbook") (by decide) (by decide),
   C4_secondary_failure_propagates_unwrapped.2 envAllFail
      (Action.goto "http://localhost:3000") (by decide) (by decide)⟩

/-- C5 counterexample: in the dashboard script, with every step failing, the
error is not caught at any boundary: no message is printed, no failure
screenshot is attempted, and the first step's exception escapes — refuting
"this holds for every verification script". -/
theorem C5_counterexample_pytest_catches_nothing :
    verify_dashboard.steps.all (fun a => !(envAllFail.ok a)) = true ∧
    (verify_dashboard.test_dashboard_optimizations envAllFail).2 =
      Outcome.exn (Action.goto "http://localhost:3000") ∧
    countPrintErrors (verify_dashboard.test_dashboard_optimizations envAllFail).1 = 0 ∧
    anyScreenshotAttempt (verify_dashboard.test_dashboard_optimizations envAllFail).1 = false := by
  decide

/-- C5 amended: only the handler-style scripts catch step-level errors at the
scenario boundary — there, with every step failing, exactly one error message
is printed and exactly one failure-screenshot attempt is made, and the only
exception that can escape is a failed failure capture; the three pytest-style
scripts catch nothing: the first step's error propagates with no message and
no screenshot attempt. -/
theorem C5_amended_catch_print_convert :
    (∀ env : Env, verify_cashbook.steps.all (fun a => !(env.ok a)) = true →
      countPrintErrors (verify_cashbook.run env).1 = 1 ∧
      screenshotAttempts verify_cashbook.errPath (verify_cashbook.run env).1 = 1 ∧
      ((verify_cashbook.run env).2 = Outcome.ok ∨
        (verify_cashbook.run env).2 =
          Outcome.exn (Action.screenshot verify_cashbook.errPath))) ∧
    (∀ env : Env, verify_refactor.steps.all (fun a => !(env.ok a)) = true →
      countPrintErrors (verify_refactor.run_verification env).1 = 1 ∧
      screenshotAttempts verify_refactor.errPath
        (verify_refactor.run_verification env).1 = 1 ∧
      ((verify_refactor.run_verification env).2 = Outcome.ok ∨
        (verify_refactor.run_verification env).2 =
          Outcome.exn (Action.screenshot verify_refactor.errPath))) ∧
    (∀ env : Env, verify_dashboard.steps.all (fun a => !(env.ok a)) = true →
      countPrintErrors (verify_dashboard.test_dashboard_optimizations env).1 = 0 ∧
      anyScreenshotAttempt (verify_dashboard.test_dashboard_optimizations env).1 = false ∧
      (verify_dashboard.test_dashboard_optimizations env).2 =
        Outcome.exn (Action.goto "http://localhost:3000")) ∧
    (∀ env : Env, verify_customer_page.steps.all (fun a => !(env.ok a)) = true →
      countPrintErrors (verify_customer_page.test_customer_page_loads_correctly env).1 = 0 ∧
      anyScreenshotAttempt
        (verify_customer_page.test_customer_page_loads_correctly env).1 = false ∧
      (verify_customer_page.test_customer_page_loads_correctly env).2 =
        Outcome.exn (Action.goto "http://localhost:3000")) ∧
    (∀ env : Env, verify_expense_report_filter.steps.all (fun a => !(env.ok a)) = true →
      countPrintErrors (verify_expense_report_filter.test_expense_report_date_filter env).1 = 0 ∧
      anyScreenshotAttempt
        (verify_expense_report_filter.test_expense_report_date_filter env).1 = false ∧
      (verify_expense_report_filter.test_expense_report_date_filter env).2 =
        Outcome.exn (Action.goto "http://localhost:3000/reports/expense")) := by
  refine ⟨fun env h => ?_, fun env h => ?_, fun env h => ?_, fun env h => ?_, fun env h => ?_⟩
  · have h0 : env.ok (verify_cashbook.steps.get ⟨0, by decide⟩) = false := by
      have := List.all_eq_true.mp h (verify_cashbook.steps.get ⟨0, by decide⟩)
        (List.get_mem _ _ _)
      simpa using this
    simp only [verify_cashbook.run,
      runnerWithHandler_firstFail env verify_cashbook.steps _ _ 0 (by decide) rfl h0]
    refine ⟨rfl, rfl, ?_⟩
    cases hE : env.ok (Action.screenshot verify_cashbook.errPath) with
    | false => exact Or.inr (by simp [hE])
    | true => exact Or.inl (by simp [hE])
  · have h0 : env.ok (verify_refactor.steps.get ⟨0, by decide⟩) = false := by
      have := List.all_eq_true.mp h (verify_refactor.steps.get ⟨0, by decide⟩)
        (List.get_mem _ _ _)
      simpa using this
    simp only [verify_refactor.run_verification,
      runnerWithHandler_firstFail env verify_refactor.steps _ _ 0 (by decide) rfl h0]
    refine ⟨rfl, rfl, ?_⟩
    cases hE : env.ok (Action.screenshot verify_refactor.errPath) with
    | false => exact Or.inr (by simp [hE])
    | true => exact Or.inl (by simp [hE])
  · have h0 : env.ok (verify_dashboard.steps.get ⟨0, by decide⟩) = false := by
      have := List.all_eq_true.mp h (verify_dashboard.steps.get ⟨0, by decide⟩)
        (List.get_mem _ _ _)
      simpa using this
    simp only [verify_dashboard.test_dashboard_optimizations,
      runnerNoHandler_firstFail env verify_dashboard.steps 0 (by decide) rfl h0]
    exact ⟨rfl, rfl, rfl⟩
  · have h0 : env.ok (verify_customer_page.steps.get ⟨0, by decide⟩) = false := by
      have := List.all_eq_true.mp h (verify_customer_page.steps.get ⟨0, by decide⟩)
        (List.get_mem _ _ _)
      simpa using this
    simp only [verify_customer_page.test_customer_page_loads_correctly,
      runnerNoHandler_firstFail env verify_customer_page.steps 0 (by decide) rfl h0]
    exact ⟨rfl, rfl, rfl⟩
  · have h0 : env.ok (verify_expense_report_filter.steps.get ⟨0, by decide⟩) = false := by
      have := List.all_eq_true.mp h (verify_expense_report_filter.steps.get ⟨0, by decide⟩)
        (List.get_mem _ _ _)
      simpa using this
    simp only [verify_expense_report_filter.test_expense_report_date_filter,
      runnerNoHandler_firstFail env verify_expense_report_filter.steps 0 (by decide) rfl h0]
    exact ⟨rfl, rfl, rfl⟩

/-- Witness for C5 amended: the all-failing environment, on the cashbook run
(one message, one failure-screenshot attempt) and on the dashboard test
(nothing caught, nothing printed, nothing captured). -/
theorem C5_amended_catch_print_convert_witness :
    countPrintErrors (verify_cashbook.run envAllFail).1 = 1 ∧
    screenshotAttempts verify_cashbook.errPath (verify_cashbook.run envAllFail).1 = 1 ∧
    countPrintErrors (verify_dashboard.test_dashboard_optimizations envAllFail).1 = 0 ∧
    anyScreenshotAttempt (verify_dashboard.test_dashboard_optimizations envAllFail).1 = false :=
  ⟨(C5_amended_catch_print_convert.1 envAllFail (by decide)).1,
   (C5_amended_catch_print_convert.1 envAllFail (by decide)).2.1,
   (C5_amended_catch_print_convert.2.2.1 envAllFail (by decide)).1,
   (C5_amended_catch_print_convert.2.2.1 envAllFail (by decide)).2.1⟩

/-- C7 counterexample: an application whose pages load but whose customer
table has no rows — navigation and both visibility targets succeed, yet the
customer-page scenario fails at the click on the (absent) first table row, so
"page loads" is not a sufficient precondition. -/
theorem C7_counterexample_requires_data_row :
    envNoRows.ok (Action.goto "http://localhost:3000") = true ∧
    envNoRows.ok (Action.expectVisible (Locator.css "table > tbody") none) = true ∧
    envNoRows.ok (Action.expectVisible (Locator.byRole "heading" "Customer Profile") none) = true ∧
    (verify_customer_page.test_customer_page_loads_correctly envNoRows).2 =
      Outcome.exn (Action.click verify_customer_page.firstRow) := by
  decide

/-- C7 amended: the customer-page scenario succeeds exactly when every one of
its steps succeeds — including the click on the first customer-table row,
which requires at least one customer record to exist; reachability plus
"page loads" alone is not sufficient. -/
theorem C7_amended_customer_page_needs_row (env : Env) :
    (verify_customer_page.test_customer_page_loads_correctly env).2 = Outcome.ok ↔
      verify_customer_page.steps.all env.ok = true := by
  rcases seqA_cases env verify_customer_page.steps with hall | ⟨k, hk, hpre, hfail⟩
  · simp [verify_customer_page.test_customer_page_loads_correctly,
      runnerNoHandler_allOk env verify_customer_page.steps hall, hall]
  · constructor
    · intro hok
      rw [verify_customer_page.test_customer_page_loads_correctly,
        runnerNoHandler_firstFail env verify_customer_page.steps k hk hpre hfail] at hok
      exact absurd hok (by simp)
    · intro hall
      have := List.all_eq_true.mp hall (verify_customer_page.steps.get ⟨k, hk⟩)
        (List.get_mem _ _ _)
      rw [hfail] at this
      cases this

/-- Witness for C7 amended: in the all-successful environment the
customer-page scenario succeeds and every step indeed succeeds. -/
theorem C7_amended_customer_page_needs_row_witness :
    (verify_customer_page.test_customer_page_loads_correctly envAllOk).2 = Outcome.ok ↔
      verify_customer_page.steps.all envAllOk.ok = true :=
  C7_amended_customer_page_needs_row envAllOk

/-- C8: in a dashboard run whose steps all succeed, the `type` call emits
exactly one keystroke-equivalent write per character of "Test Customer",
each carrying the 100 ms inter-character delay, all before the subsequent
`wait_for_timeout(500)` step begins, so at least length × 100 ms elapse
before that step. -/
theorem C8_type_text_keystrokes_and_delay (env : Env)
    (h : verify_dashboard.steps.all env.ok = true) :
    keystrokesOf (verify_dashboard.test_dashboard_optimizations env).1 =
      "Test Customer".toList.map (fun c => (c, 100)) ∧
    keystrokesOf (beforeEvent (Event.act (Action.waitForTimeout 500) true)
        (verify_dashboard.test_dashboard_optimizations env).1) =
      "Test Customer".toList.map (fun c => (c, 100)) ∧
    "Test Customer".length * 100 ≤
      traceDelay (beforeEvent (Event.act (Action.waitForTimeout 500) true)
        (verify_dashboard.test_dashboard_optimizations env).1) := by
  simp only [verify_dashboard.test_dashboard_optimizations,
    runnerNoHandler_allOk env verify_dashboard.steps h]
  exact ⟨rfl, rfl, by decide⟩

/-- Witness for C8: the all-successful environment. -/
theorem C8_type_text_keystrokes_and_delay_witness :
    keystrokesOf (verify_dashboard.test_dashboard_optimizations envAllOk).1 =
      "Test Customer".toList.map (fun c => (c, 100)) ∧
    "Test Customer".length * 100 ≤
      traceDelay (beforeEvent (Event.act (Action.waitForTimeout 500) true)
        (verify_dashboard.test_dashboard_optimizations envAllOk).1) :=
  ⟨(C8_type_text_keystrokes_and_delay envAllOk (by decide)).1,
   (C8_type_text_keystrokes_and_delay envAllOk (by decide)).2.2⟩

/-- C9: in the cashbook run, when navigation and both visibility checks
succeed but the success-screenshot write itself raises while the failure
capture works, the error is handled by the same failure path as a step
failure: the message is printed once, the failure artifact at
`error_screenshot.png` is the only screenshot produced (the success
screenshot was attempted but not produced), and the run returns normally. -/
theorem C9_success_shot_failure_takes_failure_path (env : Env)
    (h0 : env.ok (Action.goto "http://localhost:3000/cashbook") = true)
    (h1 : env.ok (Action.expectVisible (Locator.byRole "heading" "Cash Book") (some 30000)) = true)
    (h2 : env.ok (Action.expectVisible (Locator.byText "Monthly Summary") (some 30000)) = true)
    (h3 : env.ok (Action.screenshot "jules-scratch/verification/cashbook.png") = false)
    (hE : env.ok (Action.screenshot verify_cashbook.errPath) = true) :
    countPrintErrors (verify_cashbook.run env).1 = 1 ∧
    screenshotAttempts "jules-scratch/verification/cashbook.png" (verify_cashbook.run env).1 = 1 ∧
    producedScreenshots (verify_cashbook.run env).1 = [verify_cashbook.errPath] ∧
    (verify_cashbook.run env).2 = Outcome.ok := by
  have hpre : (verify_cashbook.steps.take 3).all env.ok = true := by
    simp [verify_cashbook.steps, h0, h1, h2]
  have hfail : env.ok (verify_cashbook.steps.get ⟨3, by decide⟩) = false := h3
  simp only [verify_cashbook.run,
    runnerWithHandler_firstFail env verify_cashbook.steps _ _ 3 (by decide) hpre hfail, hE]
  exact ⟨rfl, rfl, rfl, rfl⟩

/-- Witness for C9: the environment in which only the cashbook success
screenshot fails. -/
theorem C9_success_shot_failure_takes_failure_path_witness :
    countPrintErrors (verify_cashbook.run envSuccessShotFail).1 = 1 ∧
    screenshotAttempts "jules-scratch/verification/cashbook.png"
      (verify_cashbook.run envSuccessShotFail).1 = 1 ∧
    producedScreenshots (verify_cashbook.run envSuccessShotFail).1 = [verify_cashbook.errPath] ∧
    (verify_cashbook.run envSuccessShotFail).2 = Outcome.ok :=
  C9_success_shot_failure_takes_failure_path envSuccessShotFail
    (by decide) (by decide) (by decide) (by decide) (by decide)

/-- C10: in the cashbook and multi-page runs, whenever a step of the `try`
block fails and the failure screenshot succeeds, the run function returns
normally: no exception reaches the caller. -/
theorem C10_handled_failure_returns_normally :
    (∀ (env : Env) (e : Action),
      (seqA env verify_cashbook.steps).2 = some e →
      env.ok (Action.screenshot verify_cashbook.errPath) = true →
        (verify_cashbook.run env).2 = Outcome.ok) ∧
    (∀ (env : Env) (e : Action),
      (seqA env verify_refactor.steps).2 = some e →
      env.ok (Action.screenshot verify_refactor.errPath) = true →
        (verify_refactor.run_verification env).2 = Outcome.ok) := by
  constructor
  · intro env e hsome hshot
    rcases hE : seqA env verify_cashbook.steps with ⟨t, r⟩
    rw [hE] at hsome
    have hr : r = some e := hsome
    subst hr
    simp only [verify_cashbook.run, runnerWithHandler]
    rw [hE]
    simp [hshot]
  · intro env e hsome hshot
    rcases hE : seqA env verify_refactor.steps with ⟨t, r⟩
    rw [hE] at hsome
    have hr : r = some e := hsome
    subst hr
    simp only [verify_refactor.run_verification, runnerWithHandler]
    rw [hE]
    simp [hshot]

/-- Witness for C10: with every navigation failing but screenshots working,
both runs return normally despite the step failure. -/
theorem C10_handled_failure_returns_normally_witness :
    (verify_cashbook.run envGotoFail).2 = Outcome.ok ∧
    (verify_refactor.run_verification envGotoFail).2 = Outcome.ok :=
  ⟨C10_handled_failure_returns_normally.1 envGotoFail
      (Action.goto "http://localhost:3000/cashbook") (by decide) (by decide),
   C10_handled_failure_returns_normally.2 envGotoFail
      (Action.goto "http://localhost:3000") (by decide) (by decide)⟩

end ArkVerify
